import Mathlib

/-!
Verification development for the Ceradon UxS Architect core, shallowly
embedding the Stack Evaluation Engine (src/web/dist/evaluator.js together
with the helpers of utils.js) and the MissionProject Reconciliation Layer
(upgradeMissionBundle / buildMissionProjectPayload in src/web/dist/ui.js).

Numbers are modelled as rationals; JavaScript division by zero never occurs
on the guarded paths (the code substitutes 0 before dividing), and the
rational convention `x / 0 = 0` coincides with those guards.  JavaScript
objects of the MissionProject layer are modelled as a JSON value type in
which a key holding the JavaScript value `undefined` is identified with the
absent key, which is exactly the observable (JSON.stringify / pickField)
behaviour of the source.
-/

namespace Ceradon

/-- Embeds `sum` from utils.js: reduce with `acc + fn(item)` starting at 0. -/
def sumBy (l : List α) (f : α → ℚ) : ℚ :=
  l.foldl (fun acc x => acc + f x) 0

/-- Embeds an altitude band entry of `altitudeBands` in utils.js. -/
structure AltitudeBand where
  id : String
  thrustEfficiency : ℚ
  powerPenalty : ℚ
deriving Repr, DecidableEq

/-- Embeds a temperature band entry of `temperatureBands` in utils.js. -/
structure TemperatureBand where
  id : String
  capacityFactor : ℚ
deriving Repr, DecidableEq

/-- Embeds the first entry of `altitudeBands` (the default fallback). -/
def seaLevelBand : AltitudeBand := { id := "sea_level", thrustEfficiency := 1, powerPenalty := 0 }

/-- Embeds the `altitudeBands` table of utils.js (display names omitted). -/
def altitudeBands : List AltitudeBand :=
  [ seaLevelBand,
    { id := "high_desert", thrustEfficiency := (9 : ℚ)/10, powerPenalty := (12 : ℚ)/100 },
    { id := "mountain", thrustEfficiency := (82 : ℚ)/100, powerPenalty := (22 : ℚ)/100 } ]

/-- Embeds the `standard` entry of `temperatureBands` (the default fallback). -/
def standardBand : TemperatureBand := { id := "standard", capacityFactor := 1 }

/-- Embeds the `temperatureBands` table of utils.js (display names omitted). -/
def temperatureBands : List TemperatureBand :=
  [ { id := "hot", capacityFactor := (97 : ℚ)/100 },
    standardBand,
    { id := "cold", capacityFactor := (9 : ℚ)/10 },
    { id := "freezing", capacityFactor := (8 : ℚ)/10 } ]

/-- Embeds `resolveAltitude` from utils.js: find by id with `altitudeBands[0]` fallback. -/
def resolveAltitude (id : String) : AltitudeBand :=
  (altitudeBands.find? (fun b => b.id == id)).getD seaLevelBand

/-- Embeds `resolveTemperature` from utils.js: find by id with `temperatureBands[1]` fallback. -/
def resolveTemperature (id : String) : TemperatureBand :=
  (temperatureBands.find? (fun b => b.id == id)).getD standardBand

/-- Frame catalog record, with the fields evaluator.js reads. -/
structure Frame where
  weight_grams : ℚ
  cost_usd : ℚ
  max_auw_grams : ℚ
  recommended_battery_s_cells : List ℤ
  form_factor : String
  typical_role_tags : List String

/-- Motor/ESC catalog record, with the fields evaluator.js reads. -/
structure MotorEsc where
  weight_grams : ℚ
  cost_usd : ℚ
  max_current_per_motor_a : ℚ
  motor_count : ℚ
  max_thrust_per_motor_g : ℚ
  voltage_range_s_cells : List ℤ
  compatible_frame_form_factors : List String

/-- Flight controller catalog record, with the fields evaluator.js reads. -/
structure FlightController where
  weight_grams : ℚ
  cost_usd : ℚ

/-- Video link (VTX) catalog record, with the fields evaluator.js reads. -/
structure Vtx where
  weight_grams : ℚ
  cost_usd : ℚ
  power_levels_mw : List ℚ
  rf_band_ghz : ℚ

/-- RC receiver catalog record, with the fields evaluator.js reads. -/
structure RcReceiver where
  weight_grams : ℚ
  cost_usd : ℚ
  rf_band_ghz : ℚ

/-- Antenna catalog record, with the fields evaluator.js reads. -/
structure Antenna where
  weight_grams : ℚ
  cost_usd : ℚ
  rf_band_ghz : ℚ

/-- Auxiliary radio catalog record, with the fields evaluator.js reads. -/
structure AuxRadio where
  weight_grams : ℚ
  cost_usd : ℚ
  rf_band_ghz : ℚ
  duty_cycle_profile : String

/-- Camera catalog record, with the fields evaluator.js reads. -/
structure Camera where
  weight_grams : ℚ
  cost_usd : ℚ

/-- Battery catalog record, with the fields evaluator.js reads. -/
structure Battery where
  weight_grams : ℚ
  cost_usd : ℚ
  voltage_nominal : ℚ
  capacity_mah : ℚ
  s_cells : ℤ

/-- Compute unit catalog record, with the fields evaluator.js reads. -/
structure ComputeUnit where
  weight_grams : ℚ
  cost_usd : ℚ
  power_draw_typical_w : ℚ

/-- Payload catalog record, with the fields evaluator.js reads. -/
structure Payload where
  weight_grams : ℚ
  cost_usd : ℚ
  power_draw_typical_w : ℚ
  role_tags : List String

/-- Node design record (externally authored), with the fields evaluator.js reads. -/
structure NodeDesign where
  id : String
  weight_grams : ℚ
  power_draw_typical_w : ℚ
  role_tags : List String

/-- Embeds the Stack record produced by `buildStack` in evaluator.js:
one optional slot per component category, multi-valued payload and
node-payload slots, plus descriptive metadata. -/
structure Stack where
  name : String
  domain : String
  frame : Option Frame
  motorEsc : Option MotorEsc
  flightController : Option FlightController
  vtx : Option Vtx
  rcReceiver : Option RcReceiver
  rcAntenna : Option Antenna
  vtxAntenna : Option Antenna
  auxRadio : Option AuxRadio
  auxRadioAntenna : Option Antenna
  camera : Option Camera
  battery : Option Battery
  compute : Option ComputeUnit
  payloads : List Payload
  nodePayloads : List NodeDesign
  missionRole : String
  emconPosture : String

/-- Environment pair handed to `evaluateStack` (band ids). -/
structure Environment where
  altitude : String
  temperature : String

/-- Constraint set handed to `evaluateStack`; in ui.js the preferences are
`null` or a number, modelled as `Option`. -/
structure Constraints where
  minTwr : Option ℚ
  minEndurance : Option ℚ
  maxAuw : Option ℚ

/-- JavaScript truthiness of a number-or-null constraint threshold:
`null` and `0` are falsy, every other rational is truthy. -/
def truthyNum : Option ℚ → Bool
  | none => false
  | some q => q != 0

/-- Embeds `calculateEnergyWh` from utils.js, including its null-battery guard. -/
def calculateEnergyWh : Option Battery → ℚ
  | none => 0
  | some b => b.capacity_mah * b.voltage_nominal / 1000

/-- Embeds `Math.max(...)` over a spread list as evaluator.js applies it to
`power_levels_mw`; the empty case (JavaScript `-Infinity`) is outside the
rational model and the catalog's power level lists are nonempty. -/
def listMax : List ℚ → ℚ
  | [] => 0
  | x :: xs => xs.foldl max x

/-- Embeds `propulsionPower` from evaluator.js. -/
def propulsionPower (stack : Stack) : ℚ :=
  match stack.motorEsc, stack.battery with
  | some m, some b =>
      let throttleFactor : ℚ := if stack.domain = "air" then (38 : ℚ)/100 else (22 : ℚ)/100
      m.max_current_per_motor_a * m.motor_count * b.voltage_nominal * throttleFactor
  | _, _ => 0

/-- Embeds `avionicsPower` from evaluator.js: note that the receiver and
flight-controller terms are two-valued (1.2 W present / 0.8 W absent and
2 W present / 1 W absent), not zero-on-absence. -/
def avionicsPower (stack : Stack) : ℚ :=
  let computePower := (stack.compute.map (fun c => c.power_draw_typical_w)).getD 0
  let auxPower : ℚ :=
    match stack.auxRadio with
    | some a => if a.duty_cycle_profile = "continuous" then 10 else 6
    | none => 0
  let vtxPower : ℚ :=
    match stack.vtx with
    | some v => listMax v.power_levels_mw / 1000 * ((13 : ℚ)/10)
    | none => 0
  let rcPower : ℚ := if stack.rcReceiver.isSome then (12 : ℚ)/10 else (8 : ℚ)/10
  let fcPower : ℚ := if stack.flightController.isSome then 2 else 1
  computePower + auxPower + vtxPower + rcPower + fcPower

/-- Warning messages of evaluator.js, one constructor per `warnings.push`
site; the constraint warnings carry the computed value and the configured
threshold that the source interpolates into the message string. -/
inductive Warning
  | batteryCellsFrame
  | batteryCellsMotor
  | auwExceedsFrame
  | twrUnder
  | adjustedTwrUnder
  | adjustedTwrThin
  | frameFormFactor
  | vtxAntennaMismatch
  | rcAntennaMismatch
  | auxAntennaMismatch
  | maxAuwExceeded (weight : ℚ) (limitKg : ℚ)
  | minTwrViolated (twr : ℚ) (minimum : ℚ)
  | minEnduranceViolated (minutes : ℚ) (minimum : ℚ)
deriving Repr, DecidableEq

/-- Evaluation result of `evaluateStack` in evaluator.js; the returned
environment ids are kept as two string fields. -/
structure EvalResult where
  totalWeight : ℚ
  totalCost : ℚ
  thrustToWeight : ℚ
  adjustedThrustToWeight : ℚ
  enduranceMinutes : ℚ
  adjustedEnduranceMinutes : ℚ
  powerBudget : ℚ
  payloadMass : ℚ
  payloadCapacity : ℚ
  warnings : List Warning
  roleTags : List String
  envAltitude : String
  envTemperature : String

/-- Cost of an optional slot as evaluator.js computes it: the source
filters absent slots out before summing `cost_usd || 0`, so an absent slot
contributes 0. -/
def slotCost {α : Type} (o : Option α) (f : α → ℚ) : ℚ :=
  match o with
  | some x => f x
  | none => 0

/-- Weight of an optional slot: `slot?.weight_grams || 0` in evaluator.js. -/
def slotWeight {α : Type} (o : Option α) (f : α → ℚ) : ℚ :=
  match o with
  | some x => f x
  | none => 0

/-- First-seen-order deduplicating insertion, the JavaScript `Set`
insertion-order semantics used for role tags. -/
def addTag (acc : List String) (t : String) : List String :=
  if t ∈ acc then acc else acc ++ [t]

/-- Embeds `evaluateStack` from evaluator.js, in the order of the source:
weights, cost, thrust, power budget, energy, endurance, warnings, role tags.
The `environment?.altitude || 'sea_level'` fallback is modelled by treating
the empty string as absent. -/
def evaluateStack (stack : Stack) (environment : Environment) (constraints : Constraints) :
    EvalResult :=
  let altitude := resolveAltitude (if environment.altitude = "" then "sea_level" else environment.altitude)
  let temperature := resolveTemperature (if environment.temperature = "" then "standard" else environment.temperature)
  let totalWeight := sumBy
    [ slotWeight stack.frame (fun x => x.weight_grams),
      slotWeight stack.motorEsc (fun x => x.weight_grams),
      slotWeight stack.flightController (fun x => x.weight_grams),
      slotWeight stack.vtx (fun x => x.weight_grams),
      slotWeight stack.rcReceiver (fun x => x.weight_grams),
      slotWeight stack.rcAntenna (fun x => x.weight_grams),
      slotWeight stack.vtxAntenna (fun x => x.weight_grams),
      slotWeight stack.auxRadio (fun x => x.weight_grams),
      slotWeight stack.auxRadioAntenna (fun x => x.weight_grams),
      slotWeight stack.camera (fun x => x.weight_grams),
      slotWeight stack.battery (fun x => x.weight_grams),
      slotWeight stack.compute (fun x => x.weight_grams),
      sumBy stack.payloads (fun p => p.weight_grams),
      sumBy stack.nodePayloads (fun p => p.weight_grams) ] (fun x => x)
  let totalCost :=
    slotCost stack.frame (fun x => x.cost_usd) +
    slotCost stack.motorEsc (fun x => x.cost_usd) +
    slotCost stack.flightController (fun x => x.cost_usd) +
    slotCost stack.vtx (fun x => x.cost_usd) +
    slotCost stack.rcReceiver (fun x => x.cost_usd) +
    slotCost stack.rcAntenna (fun x => x.cost_usd) +
    slotCost stack.vtxAntenna (fun x => x.cost_usd) +
    slotCost stack.auxRadio (fun x => x.cost_usd) +
    slotCost stack.auxRadioAntenna (fun x => x.cost_usd) +
    slotCost stack.camera (fun x => x.cost_usd) +
    slotCost stack.battery (fun x => x.cost_usd) +
    slotCost stack.compute (fun x => x.cost_usd) +
    sumBy stack.payloads (fun p => p.cost_usd)
  let thrustTotal :=
    match stack.motorEsc with
    | some m => m.max_thrust_per_motor_g * m.motor_count
    | none => 0
  let thrustToWeight := if 0 < totalWeight then thrustTotal / totalWeight else 0
  let adjustedThrustToWeight :=
    if 0 < totalWeight then thrustTotal * altitude.thrustEfficiency / totalWeight else 0
  let payloadCapacity := slotWeight stack.frame (fun f => f.max_auw_grams)
  let payloadMass :=
    sumBy stack.payloads (fun p => p.weight_grams) + sumBy stack.nodePayloads (fun p => p.weight_grams)
  let propulsion := propulsionPower stack
  let payloadPower :=
    sumBy stack.payloads (fun p => p.power_draw_typical_w) +
    sumBy stack.nodePayloads (fun p => p.power_draw_typical_w)
  let powerBudget := propulsion + avionicsPower stack + payloadPower
  let adjustedPower := powerBudget * (1 + altitude.powerPenalty)
  let nominalCapacity := calculateEnergyWh stack.battery * ((9 : ℚ)/10)
  let adjustedCapacity := nominalCapacity * temperature.capacityFactor
  let enduranceMinutes := if 0 < powerBudget then nominalCapacity / powerBudget * 60 else 0
  let adjustedEnduranceMinutes := if 0 < adjustedPower then adjustedCapacity / adjustedPower * 60 else 0
  let warnings : List Warning :=
    (match stack.frame, stack.battery with
     | some f, some b =>
        if b.s_cells ∈ f.recommended_battery_s_cells then [] else [Warning.batteryCellsFrame]
     | _, _ => []) ++
    (match stack.motorEsc, stack.battery with
     | some m, some b =>
        if b.s_cells ∈ m.voltage_range_s_cells then [] else [Warning.batteryCellsMotor]
     | _, _ => []) ++
    (if stack.frame.isSome ∧ payloadCapacity ≠ 0 ∧ payloadCapacity < totalWeight
      then [Warning.auwExceedsFrame] else []) ++
    (if stack.domain = "air" ∧ thrustToWeight < (13 : ℚ)/10 then [Warning.twrUnder] else []) ++
    (if stack.domain = "air" ∧ adjustedThrustToWeight < (13 : ℚ)/10 then [Warning.adjustedTwrUnder]
     else if stack.domain = "air" ∧ adjustedThrustToWeight < (14 : ℚ)/10 then [Warning.adjustedTwrThin]
     else []) ++
    (match stack.motorEsc, stack.frame with
     | some m, some f =>
        if f.form_factor ∈ m.compatible_frame_form_factors then [] else [Warning.frameFormFactor]
     | _, _ => []) ++
    (match stack.vtx, stack.vtxAntenna with
     | some v, some a =>
        if (1 : ℚ)/2 < |v.rf_band_ghz - a.rf_band_ghz| then [Warning.vtxAntennaMismatch] else []
     | _, _ => []) ++
    (match stack.rcReceiver, stack.rcAntenna with
     | some r, some a =>
        if (1 : ℚ)/2 < |r.rf_band_ghz - a.rf_band_ghz| then [Warning.rcAntennaMismatch] else []
     | _, _ => []) ++
    (match stack.auxRadio, stack.auxRadioAntenna with
     | some r, some a =>
        if (1 : ℚ)/2 < |r.rf_band_ghz - a.rf_band_ghz| then [Warning.auxAntennaMismatch] else []
     | _, _ => []) ++
    (match constraints.maxAuw with
     | some v => if v ≠ 0 ∧ v * 1000 < totalWeight then [Warning.maxAuwExceeded totalWeight v] else []
     | none => []) ++
    (match constraints.minTwr with
     | some v =>
        if v ≠ 0 ∧ adjustedThrustToWeight < v then [Warning.minTwrViolated adjustedThrustToWeight v]
        else []
     | none => []) ++
    (match constraints.minEndurance with
     | some v =>
        if v ≠ 0 ∧ adjustedEnduranceMinutes < v
          then [Warning.minEnduranceViolated adjustedEnduranceMinutes v] else []
     | none => [])
  let roleTags :=
    (((stack.frame.map (fun f => f.typical_role_tags)).getD []) ++
      stack.payloads.flatMap (fun p => p.role_tags) ++
      stack.nodePayloads.flatMap (fun p => p.role_tags)).foldl addTag []
  { totalWeight := totalWeight
    totalCost := totalCost
    thrustToWeight := thrustToWeight
    adjustedThrustToWeight := adjustedThrustToWeight
    enduranceMinutes := enduranceMinutes
    adjustedEnduranceMinutes := adjustedEnduranceMinutes
    powerBudget := powerBudget
    payloadMass := payloadMass
    payloadCapacity := payloadCapacity
    warnings := warnings
    roleTags := roleTags
    envAltitude := altitude.id
    envTemperature := temperature.id }

/-- JSON value as exchanged by the MissionProject layer of ui.js.  Objects
are insertion-ordered association lists; a key bound to the JavaScript
value `undefined` is identified with the absent key (the observable
JSON.stringify / pickField behaviour). -/
inductive JVal where
  | str (s : String)
  | num (q : ℚ)
  | boolean (b : Bool)
  | null
  | arr (xs : List JVal)
  | obj (fields : List (String × JVal))

/-- JavaScript truthiness of a JSON value (NaN does not arise in the
rational model). -/
def jsTruthy : JVal → Bool
  | .str s => s != ""
  | .num q => q != 0
  | .boolean b => b
  | .null => false
  | .arr _ => true
  | .obj _ => true

/-- Strict equality `===` restricted to JSON data: structural on the
primitives, and conservatively false on arrays and objects (reference
equality of two distinct parsed values). -/
def jsStrictEq : JVal → JVal → Bool
  | .str a, .str b => a == b
  | .num a, .num b => decide (a = b)
  | .boolean a, .boolean b => a == b
  | .null, .null => true
  | _, _ => false

/-- Field lookup in an association list, first match. -/
def lookupField : List (String × JVal) → String → Option JVal
  | [], _ => none
  | p :: rest, k => if p.1 == k then some p.2 else lookupField rest k

/-- Property read `v[k]`; absent key or non-object receiver is `undefined`. -/
def getField (v : JVal) (k : String) : Option JVal :=
  match v with
  | .obj fs => lookupField fs k
  | _ => none

/-- Assignment of a key: update in place when present (JavaScript objects
keep the original slot of an existing key), append otherwise. -/
def setField : List (String × JVal) → String → JVal → List (String × JVal)
  | [], k, v => [(k, v)]
  | p :: rest, k, v => if p.1 == k then (p.1, v) :: rest else p :: setField rest k v

/-- Removal of a key, the model of assigning `undefined` to it. -/
def eraseField : List (String × JVal) → String → List (String × JVal)
  | [], _ => []
  | p :: rest, k => if p.1 == k then eraseField rest k else p :: eraseField rest k

/-- Assignment of a possibly-undefined value. -/
def applyField (fs : List (String × JVal)) (k : String) : Option JVal → List (String × JVal)
  | some v => setField fs k v
  | none => eraseField fs k

/-- Fields of an object value; the spread of a non-object contributes no
string-keyed fields of interest here. -/
def objFields : JVal → List (String × JVal)
  | .obj fs => fs
  | _ => []

/-- Object literal `{...base, k1: v1, ...}` where each value may be the
JavaScript `undefined`. -/
def objLit (base : JVal) (fields : List (String × Option JVal)) : JVal :=
  .obj (fields.foldl (fun fs p => applyField fs p.1 p.2) (objFields base))

/-- Object literal with no spread part. -/
def objOf (fields : List (String × Option JVal)) : JVal :=
  objLit (.obj []) fields

/-- Spread merge `{...a, ...b}`. -/
def mergeVals (a b : JVal) : JVal :=
  .obj ((objFields b).foldl (fun fs q => setField fs q.1 q.2) (objFields a))

/-- Embeds `pickField` from ui.js: walk the alias names in order and
return the first field that is defined on a truthy entry; fall through to
`undefined` otherwise. -/
def pickField (entry : JVal) : List String → Option JVal
  | [] => none
  | n :: rest =>
    if jsTruthy entry then
      match getField entry n with
      | some v => some v
      | none => pickField entry rest
    else pickField entry rest

/-- JavaScript `a || b` with a possibly-undefined left operand. -/
def jsOr (a : Option JVal) (b : JVal) : JVal :=
  match a with
  | some x => if jsTruthy x then x else b
  | none => b

/-- JavaScript `a || b` with defined operands. -/
def jsOrV (a b : JVal) : JVal :=
  if jsTruthy a then a else b

/-- JavaScript `a || b` where both sides may be undefined. -/
def jsOrOpt (a b : Option JVal) : Option JVal :=
  match a with
  | some x => if jsTruthy x then some x else b
  | none => b

/-- JavaScript `a || undefined`: a falsy value becomes undefined. -/
def jsOrU (a : Option JVal) : Option JVal :=
  match a with
  | some x => if jsTruthy x then some x else none
  | none => none

/-- JavaScript `a ?? b`: fall through on null and undefined only. -/
def coal (a : Option JVal) (b : JVal) : JVal :=
  match a with
  | some .null => b
  | some x => x
  | none => b

/-- JavaScript `a ?? b` keeping the possibly-undefined shape. -/
def coalOpt (a b : Option JVal) : Option JVal :=
  match a with
  | some .null => b
  | some x => some x
  | none => b

/-- List of an array-valued field, `(bundle.k || []).map` receivers: absent
and falsy values give the empty list (a truthy non-array would throw in the
source; bundles are well formed). -/
def arrField (v : JVal) (k : String) : List JVal :=
  match getField v k with
  | some (.arr xs) => xs
  | _ => []

/-- Elements of an array value, empty for anything else. -/
def arrElems : JVal → List JVal
  | .arr xs => xs
  | _ => []

/-- Embeds the `mapEnv` normalizer of `upgradeMissionBundle` in ui.js. -/
def mapEnv (env : JVal) : JVal :=
  objLit env
    [ ("altitudeBand", pickField env ["altitudeBand", "altitude_band"]),
      ("temperatureBand", pickField env ["temperatureBand", "temperature_band"]) ]

/-- Embeds the `mapConstraint` normalizer of `upgradeMissionBundle` in ui.js. -/
def mapConstraint (c : JVal) : JVal :=
  objLit c
    [ ("minThrustToWeight", pickField c ["minThrustToWeight", "min_thrust_to_weight"]),
      ("minAdjustedEnduranceMin", pickField c ["minAdjustedEnduranceMin", "min_adjusted_endurance_min"]),
      ("maxAuwKg", pickField c ["maxAuwKg", "max_auw_kg"]) ]

/-- Embeds the `mapNode` normalizer of `upgradeMissionBundle` in ui.js;
note the `|| []` default on `role`. -/
def mapNode (n : JVal) : JVal :=
  objLit n
    [ ("weightGrams", pickField n ["weightGrams", "weight_grams"]),
      ("powerDrawW", pickField n ["powerDrawW", "power_draw_w", "power_w"]),
      ("rfBandGhz", pickField n ["rfBandGhz", "rf_band_ghz"]),
      ("role", some (jsOr (pickField n ["role", "role_tags"]) (.arr []))) ]

/-- Embeds the `mapPlatform` normalizer of `upgradeMissionBundle` in ui.js;
note the `|| []` defaults on the four list-valued fields. -/
def mapPlatform (p : JVal) : JVal :=
  objLit p
    [ ("frameType", pickField p ["frameType", "frame_type", "frame"]),
      ("mountedNodeIds", some (jsOr (pickField p ["mountedNodeIds", "mounted_node_ids"]) (.arr []))),
      ("payloadIds", some (jsOr (pickField p ["payloadIds", "payload_ids"]) (.arr []))),
      ("rfBandsGhz", some (jsOr (pickField p ["rfBandsGhz", "rf_bands_ghz"]) (.arr []))),
      ("powerBudgetW", pickField p ["powerBudgetW", "power_budget_w"]),
      ("batteryWh", pickField p ["batteryWh", "battery_wh"]),
      ("auwKg", pickField p ["auwKg", "auw_kg"]),
      ("nominalEnduranceMin", pickField p ["nominalEnduranceMin", "nominal_endurance_min"]),
      ("adjustedEnduranceMin", pickField p ["adjustedEnduranceMin", "adjusted_endurance_min"]),
      ("thrustToWeight", pickField p ["thrustToWeight", "thrust_to_weight"]),
      ("adjustedThrustToWeight",
        pickField p ["adjustedThrustToWeight", "adjusted_thrust_to_weight", "thrust_to_weight"]),
      ("missionRoles", some (jsOr (pickField p ["missionRoles", "mission_roles"]) (.arr []))),
      ("intendedRoles", some (jsOr (pickField p ["intendedRoles", "intended_roles"]) (.arr []))),
      ("environmentRef", pickField p ["environmentRef", "environment_ref"]),
      ("constraintsRef", pickField p ["constraintsRef", "constraints_ref"]) ]

/-- Embeds the `mapLink` normalizer of `upgradeMissionBundle` in ui.js. -/
def mapLink (l : JVal) : JVal :=
  objLit l [("rfBandGhz", pickField l ["rfBandGhz", "rf_band_ghz"])]

/-- Embeds the kit normalizer inside `upgradeMissionBundle` in ui.js. -/
def mapKit (k : JVal) : JVal :=
  objLit k [("supportedPlatformIds", pickField k ["supportedPlatformIds", "supported_platform_ids"])]

/-- Embeds `upgradeMissionBundle` from ui.js, the MissionProject
normalizer.  Mirrors the source exactly: the spread keeps every field of
the input (including a legacy `mesh_links` array, which is also merged
into `meshLinks`), `schemaVersion` and `version` are defaulted to the
schema constant, and each entity list is rebuilt through its mapper. -/
def upgradeMissionBundle (input : JVal) : JVal :=
  let mp := getField input "mission_project"
  let bundle :=
    match mp with
    | some x => jsOrV x (jsOrV input (.obj []))
    | none => jsOrV input (.obj [])
  let fs0 := objFields bundle
  let fs1 := setField fs0 "schemaVersion" (jsOr (lookupField fs0 "schemaVersion") (.str "2.0.0"))
  let fs2 := setField fs1 "version" (jsOr (lookupField fs1 "version") (.str "2.0.0"))
  let fs3 := setField fs2 "environment" (.arr ((arrField bundle "environment").map mapEnv))
  let fs4 := setField fs3 "constraints" (.arr ((arrField bundle "constraints").map mapConstraint))
  let fs5 := setField fs4 "nodes" (.arr ((arrField bundle "nodes").map mapNode))
  let fs6 := setField fs5 "platforms" (.arr ((arrField bundle "platforms").map mapPlatform))
  let fs7 := setField fs6 "meshLinks"
    (.arr ((arrField bundle "meshLinks" ++ arrField bundle "mesh_links").map mapLink))
  let fs8 := setField fs7 "kits" (.arr ((arrField bundle "kits").map mapKit))
  let upgraded := JVal.obj fs8
  match mp with
  | some x => if jsTruthy x then JVal.obj [("mission_project", upgraded)] else upgraded
  | none => upgraded

/-- Embeds `REQUIRED_PARTS` from ui.js: label plus slot-presence accessor
(components are objects, so JavaScript truthiness of a slot is presence). -/
def requiredParts : List (String × (Stack → Bool))  :=
  [ ("Frame", fun s => s.frame.isSome),
    ("Propulsion", fun s => s.motorEsc.isSome),
    ("Battery", fun s => s.battery.isSome),
    ("Compute", fun s => s.compute.isSome),
    ("Radio link", fun s => s.rcReceiver.isSome) ]

/-- Embeds `missingRequiredParts` from ui.js (the stack produced by
`buildStack` is never null, so only the filter branch is modelled). -/
def missingRequiredParts (stack : Stack) : List String :=
  (requiredParts.filter (fun p => !(p.2 stack))).map (fun p => p.1)

/-- Embeds the evaluation gate of `evaluateAndRender` in ui.js: when
`missingRequiredParts` is nonempty the handler sets `lastResult = null` and
returns before calling `evaluateStack`; otherwise it stores the numeric
result.  The returned option is that `lastResult`. -/
def evaluateAndRenderResult (stack : Stack) (environment : Environment)
    (constraints : Constraints) : Option EvalResult :=
  match missingRequiredParts stack with
  | [] => some (evaluateStack stack environment constraints)
  | _ :: _ => none

/-- Optional chain `v.k1?.k2` (property reads on primitives are undefined). -/
def optChain (v : JVal) (k1 k2 : String) : Option JVal :=
  match getField v k1 with
  | some x => getField x k2
  | none => none

/-- Embeds `sanitizeLocation` from ui.js: null unless `lat` and `lon` are
finite numbers; `elevation_m` kept only when numeric. -/
def sanitizeLocation (loc : Option JVal) : JVal :=
  match loc with
  | some l =>
    if jsTruthy l then
      match getField l "lat", getField l "lon" with
      | some (.num la), some (.num lo) =>
          match getField l "elevation_m" with
          | some (.num el) => .obj [("lat", .num la), ("lon", .num lo), ("elevation_m", .num el)]
          | _ => .obj [("lat", .num la), ("lon", .num lo)]
      | _, _ => .null
    else .null
  | none => .null

/-- Strict equality where either side may be undefined. -/
def jsStrictEqOpt (a b : Option JVal) : Bool :=
  match a, b with
  | none, none => true
  | some x, some y => jsStrictEq x y
  | _, _ => false

/-- Embeds `findById` from catalog.ts applied to a JSON collection:
`items.find((item) => item.id === id) || null`. -/
def findById (items : Option JVal) (id : Option JVal) : JVal :=
  match items with
  | some (.arr xs) =>
      match xs.find? (fun it => jsStrictEqOpt (getField it "id") id) with
      | some it => jsOrV it .null
      | none => .null
  | _ => .null

/-- JavaScript `Set` insertion with SameValueZero keys restricted to JSON
data (objects stay reference-distinct, modelled as never equal). -/
def setAdd (acc : List JVal) (v : JVal) : List JVal :=
  if acc.any (fun x => jsStrictEq x v) then acc else acc ++ [v]

/-- Embeds `collectRfBands` from ui.js; the module-level `getCatalog()` is
passed explicitly as `workingCatalog`. -/
def collectRfBands (entry : JVal) (workingCatalog : JVal) : List JVal :=
  let base := arrElems (jsOr (jsOrOpt (getField entry "rf_bands_ghz") (getField entry "rfBandsGhz")) (.arr []))
  let sel := jsOr (getField entry "selection") (.obj [])
  let rc := findById (getField workingCatalog "rcReceivers")
    (jsOrOpt (getField sel "rcReceiver") (getField sel "rc_receiver"))
  let vtx := findById (getField workingCatalog "vtx") (getField sel "vtx")
  let aux := findById (getField workingCatalog "auxRadios")
    (jsOrOpt (getField sel "auxRadio") (getField sel "aux_radio"))
  let rcAnt := findById (getField workingCatalog "antennas")
    (jsOrOpt (getField sel "rcAntenna") (getField sel "rc_antenna"))
  let vtxAnt := findById (getField workingCatalog "antennas")
    (jsOrOpt (getField sel "vtxAntenna") (getField sel "vtx_antenna"))
  let auxAnt := findById (getField workingCatalog "antennas")
    (jsOrOpt (getField sel "auxRadioAntenna") (getField sel "aux_radio_antenna"))
  let finite := ([rc, vtx, aux, rcAnt, vtxAnt, auxAnt].filterMap (fun it =>
    if jsTruthy it then
      match getField it "rf_band_ghz" with
      | some (.num q) => some (JVal.num q)
      | _ => none
    else none))
  finite.foldl setAdd (base.foldl setAdd [])

/-- JavaScript `toFixed(3)` then `Number(...)`, modelled as exact
round-half-up to three decimals (the source rounds in binary floating
point, which none of the verified claims depend on). -/
def toFixed3 (q : ℚ) : ℚ :=
  (round (q * 1000) : ℤ) / 1000

/-- Arithmetic `(a.capacity_mah * a.voltage_nominal) / 1000` on a found
battery object; a missing numeric field would give NaN, which JSON
serialization turns into null. -/
def batteryWhOf (battery : JVal) : JVal :=
  match getField battery "capacity_mah", getField battery "voltage_nominal" with
  | some (.num a), some (.num b) => .num (a * b / 1000)
  | _, _ => .null

/-- Embeds `snapshotToPlatform` from ui.js: the canonical platform entry
derived from a saved-platform snapshot. -/
def snapshotToPlatform (entry envId constraintId workingCatalog : JVal) : JVal :=
  let selBattery := optChain entry "selection" "battery"
  let battery : JVal :=
    match selBattery with
    | some v => if jsTruthy v then findById (getField workingCatalog "batteries") (some v) else .null
    | none => .null
  let batteryWh : Option JVal := if jsTruthy battery then some (batteryWhOf battery) else none
  let selFrame := optChain entry "selection" "frame"
  let frame : JVal :=
    match selFrame with
    | some v => if jsTruthy v then findById (getField workingCatalog "frames") (some v) else .null
    | none => .null
  let payloadCapacity : Option JVal := getField frame "max_auw_grams"
  let payloadAllowance : Option JVal :=
    match payloadCapacity, optChain entry "metrics" "totalWeight" with
    | some pc, some tw =>
        if jsTruthy pc ∧ jsTruthy tw then
          some (match pc, tw with
                | .num a, .num b => .num (max (a - b) 0)
                | _, _ => .null)
        else none
    | _, _ => none
  let auwKg : Option JVal :=
    match optChain entry "metrics" "totalWeight" with
    | some (.num q) => some (.num (toFixed3 (q / 1000)))
    | _ => none
  objOf
    [ ("id", getField entry "id"),
      ("name", getField entry "name"),
      ("origin_tool", some (jsOr (getField entry "origin_tool") (.str "UxSArchitect"))),
      ("domain", some (jsOr (optChain entry "selection" "domain") (.str "air"))),
      ("frameType", some (jsOr (getField entry "frameType")
        (jsOr (optChain entry "selection" "frame") (.str "frame")))),
      ("payloadIds", some (jsOr (optChain entry "selection" "payloads") (.arr []))),
      ("mountedNodeIds", some (jsOr (getField entry "mountedNodes") (.arr []))),
      ("rfBandsGhz", some (.arr (collectRfBands entry workingCatalog))),
      ("powerBudgetW", jsOrU (optChain entry "metrics" "powerBudget")),
      ("batteryWh", batteryWh),
      ("payloadCapacityGrams", payloadCapacity),
      ("payloadAllowanceGrams", payloadAllowance),
      ("auwKg", auwKg),
      ("nominalEnduranceMin", jsOrU (optChain entry "metrics" "enduranceMinutes")),
      ("adjustedEnduranceMin", jsOrU (optChain entry "metrics" "adjustedEnduranceMinutes")),
      ("thrustToWeight", jsOrU (optChain entry "metrics" "thrustToWeight")),
      ("adjustedThrustToWeight", jsOrU (optChain entry "metrics" "adjustedThrustToWeight")),
      ("hoverThrottle", optChain entry "metrics" "hoverThrottle"),
      ("hoverPowerW", optChain entry "metrics" "hoverPower"),
      ("launchMethod", jsOrOpt (optChain entry "selection" "launchMethod") (getField entry "launchMethod")),
      ("recoveryMethod", jsOrOpt (optChain entry "selection" "recoveryMethod") (getField entry "recoveryMethod")),
      ("expectedThreatLevel", jsOrOpt (optChain entry "selection" "expectedThreatLevel")
        (getField entry "expectedThreatLevel")),
      ("missionRoles", some (jsOr (getField entry "roleTags") (.arr []))),
      ("intendedRoles", some (jsOr (getField entry "roleTags") (.arr []))),
      ("environmentRef", some envId),
      ("environment", some (objOf
        [ ("altitudeBand", optChain entry "environment" "altitude"),
          ("temperatureBand", optChain entry "environment" "temperature") ])),
      ("constraintsRef", some constraintId),
      ("location", some (jsOr (getField entry "geo") .null)),
      ("notes", jsOrU (getField entry "notes")) ]

/-- JavaScript `Map` update keyed by `===`: replace in place, else append. -/
def mapSet (m : List (JVal × JVal)) (k v : JVal) : List (JVal × JVal) :=
  if m.any (fun e => jsStrictEq e.1 k) then
    m.map (fun e => if jsStrictEq e.1 k then (e.1, v) else e)
  else m ++ [(k, v)]

/-- JavaScript `Map.get` keyed by `===`. -/
def mapGet (m : List (JVal × JVal)) (k : JVal) : Option JVal :=
  (m.find? (fun e => jsStrictEq e.1 k)).map (fun e => e.2)

/-- Base pass of both `Map`s in `buildMissionProjectPayload`:
`if (x.id) map.set(x.id, x)`. -/
def baseIdStep (m : List (JVal × JVal)) (p : JVal) : List (JVal × JVal) :=
  match getField p "id" with
  | some pid => if jsTruthy pid then mapSet m pid p else m
  | none => m

/-- Platform overlay pass of `buildMissionProjectPayload`:
`map.set(p.id, {...(map.get(p.id) || {}), ...p})` for entries with a
truthy id. -/
def platformOverlayStep (m : List (JVal × JVal)) (p : JVal) : List (JVal × JVal) :=
  match getField p "id" with
  | some pid =>
      if jsTruthy pid then mapSet m pid (mergeVals (jsOr (mapGet m pid) (.obj [])) p) else m
  | none => m

/-- Merged node-library entry of `buildMissionProjectPayload`, the object
literal spread over the base map entry. -/
def nodeMerged (m : List (JVal × JVal)) (n : JVal) (nid : JVal) : JVal :=
  objLit (jsOr (mapGet m nid) (.obj []))
    [ ("id", some nid),
      ("name", getField n "name"),
      ("role", some (jsOr (getField n "role_tags") (.arr []))),
      ("origin_tool", some (jsOr (getField n "origin_tool") (.str "node"))),
      ("power_draw_w", some (jsOr (getField n "power_draw_typical_w") (.num 0))),
      ("weight_grams", some (jsOr (getField n "weight_grams") (.num 0))),
      ("rf_band_ghz", jsOrU (getField n "rf_band_ghz")),
      ("location", some (sanitizeLocation (getField n "location"))),
      ("notes", getField n "notes") ]

/-- Node overlay pass of `buildMissionProjectPayload`:
`if (!n.id) return;` then `map.set(n.id, merged)`. -/
def nodeOverlayStep (m : List (JVal × JVal)) (n : JVal) : List (JVal × JVal) :=
  match getField n "id" with
  | some nid => if jsTruthy nid then mapSet m nid (nodeMerged m n nid) else m
  | none => m

/-- Replace the first list element satisfying the test. -/
def replaceFirst (xs : List JVal) (p : JVal → Bool) (f : JVal → JVal) : List JVal :=
  match xs with
  | [] => []
  | x :: rest => if p x then f x :: rest else x :: replaceFirst rest p f

/-- Module-level session state read by `buildMissionProjectPayload` in
ui.js; `workingCatalog` is the value of `getCatalog()`, and
`importedMissionProject` is `JVal.null` when nothing was imported. -/
structure SessionState where
  workingCatalog : JVal
  importedMissionProject : JVal
  missionMeta : JVal
  savedPlatforms : List JVal
  nodeLibrary : List JVal
  sessionEnvironment : JVal
  constraintPrefs : JVal
  meshLinks : JVal
  kits : JVal

/-- First entity id `innerBase.k?.[0]?.id` of an entity array. -/
def firstEntityId (b : JVal) (k : String) : Option JVal :=
  match getField b k with
  | some (.arr (x :: _)) => getField x "id"
  | _ => none

/-- Base bundle of `buildMissionProjectPayload`:
`upgradeMissionBundle(importedMissionProject || {})` unwrapped through
`baseBundle.mission_project || baseBundle`. -/
def innerBaseOf (st : SessionState) : JVal :=
  let baseBundle := upgradeMissionBundle (jsOrV st.importedMissionProject (.obj []))
  jsOr (getField baseBundle "mission_project") baseBundle

/-- Nullish `x ?? undefined` of a constraint preference. -/
def prefOf (prefs : JVal) (k : String) : Option JVal :=
  match getField prefs k with
  | some .null => none
  | some x => some x
  | none => none

/-- Session environment-entry id of `buildMissionProjectPayload`:
`missionMeta.environment_id || innerBase.environment?.[0]?.id || 'env-local'`. -/
def envIdOf (st : SessionState) : JVal :=
  jsOr (jsOrOpt (getField st.missionMeta "environment_id")
    (firstEntityId (innerBaseOf st) "environment")) (.str "env-local")

/-- Session constraint-entry id of `buildMissionProjectPayload`. -/
def constraintIdOf (st : SessionState) : JVal :=
  jsOr (jsOrOpt (getField st.missionMeta "constraint_id")
    (firstEntityId (innerBaseOf st) "constraints")) (.str "cst-local")

/-- Canonical platform entries derived from the saved-platform snapshots,
`savedPlatforms.map((p) => snapshotToPlatform(p, envId, constraintId, workingCatalog))`. -/
def platformEntriesOf (st : SessionState) : List JVal :=
  st.savedPlatforms.map
    (fun p => snapshotToPlatform p (envIdOf st) (constraintIdOf st) st.workingCatalog)

/-- Platform merge map of `buildMissionProjectPayload`: base-bundle entries
with truthy ids, overlaid by the session entries by id. -/
def mergedPlatformsOf (st : SessionState) : List (JVal × JVal) :=
  (platformEntriesOf st).foldl platformOverlayStep
    ((arrField (innerBaseOf st) "platforms").foldl baseIdStep [])

/-- Node merge map of `buildMissionProjectPayload`: base-bundle entries
with truthy ids, overlaid by the node-library entries by id. -/
def nodeEntriesOf (st : SessionState) : List (JVal × JVal) :=
  st.nodeLibrary.foldl nodeOverlayStep
    ((arrField (innerBaseOf st) "nodes").foldl baseIdStep [])

/-- Embeds the bundle construction of `buildMissionProjectPayload` in
ui.js (everything up to the final envelope decision): session environment
and constraint entries keyed by the recorded or first ids, platform and
node maps seeded from the base bundle and overlaid by id, and the final
spread of `innerBase` with the canonical entity arrays. -/
def buildMissionProjectBundle (st : SessionState) : JVal :=
  let innerBase := innerBaseOf st
  let envId := envIdOf st
  let constraintId := constraintIdOf st
  let environmentEntry := objOf
    [ ("id", some envId),
      ("altitudeBand", getField st.sessionEnvironment "altitude"),
      ("temperatureBand", getField st.sessionEnvironment "temperature"),
      ("notes", some (jsOr (getField st.missionMeta "environment_notes")
        (.str "Captured from UI environment selectors"))) ]
  let constraintEntry := objOf
    [ ("id", some constraintId),
      ("minThrustToWeight", prefOf st.constraintPrefs "minTwr"),
      ("minAdjustedEnduranceMin", prefOf st.constraintPrefs "minEndurance"),
      ("maxAuwKg", prefOf st.constraintPrefs "maxAuw") ]
  let mergedPlatforms := mergedPlatformsOf st
  let nodeEntries := nodeEntriesOf st
  let envBase := match getField innerBase "environment" with
    | some (.arr xs) => xs
    | _ => []
  let envTest := fun e => jsStrictEqOpt (getField e "id") (some envId)
  let environmentEntries :=
    if envBase.any envTest then replaceFirst envBase envTest (fun e => mergeVals e environmentEntry)
    else environmentEntry :: envBase
  let cstBase := match getField innerBase "constraints" with
    | some (.arr xs) => xs
    | _ => []
  let cstTest := fun c => jsStrictEqOpt (getField c "id") (some constraintId)
  let constraintEntries :=
    if cstBase.any cstTest then replaceFirst cstBase cstTest (fun c => mergeVals c constraintEntry)
    else constraintEntry :: cstBase
  let mission := objLit (mergeVals (JVal.obj (objFields (coal (getField innerBase "mission") .null)))
      st.missionMeta)
    [ ("origin_tool", some (jsOr (getField st.missionMeta "origin_tool")
        (jsOr (getField innerBase "origin_tool") (.str "UxSArchitect")))) ]
  let f0 := objFields innerBase
  let f1 := setField f0 "schemaVersion" (jsOr (getField innerBase "schemaVersion") (.str "2.0.0"))
  let f2 := setField f1 "version" (jsOr (getField innerBase "version") (.str "2.0.0"))
  let f3 := setField f2 "origin_tool" (jsOr (getField innerBase "origin_tool") (.str "UxSArchitect"))
  let f4 := setField f3 "mission" mission
  let f5 := setField f4 "environment" (.arr environmentEntries)
  let f6 := setField f5 "constraints" (.arr constraintEntries)
  let f7 := setField f6 "nodes" (.arr (nodeEntries.map (fun e => e.2)))
  let f8 := setField f7 "platforms" (.arr (mergedPlatforms.map (fun e => e.2)))
  let f9 := setField f8 "meshLinks" (coal (getField innerBase "meshLinks")
    (coal (getField innerBase "mesh_links") (coal (some st.meshLinks) (.arr []))))
  let f10 := setField f9 "kits" (coal (getField innerBase "kits") (coal (some st.kits) (.arr [])))
  JVal.obj f10

/-- Embeds `buildMissionProjectPayload` from ui.js: the merged bundle,
re-wrapped in a `mission_project` envelope exactly when the imported
project used one. -/
def buildMissionProjectPayload (st : SessionState) : JVal :=
  let bundle := buildMissionProjectBundle st
  match getField st.importedMissionProject "mission_project" with
  | some mp => if jsTruthy mp then JVal.obj [("mission_project", bundle)] else bundle
  | none => bundle

/-- Modelled from the spec: the alias-resolution contract of §4.4, "for
each canonical field, consult its alias list in a fixed priority order and
take the first defined value" — stated independently of the source code so
the normalizer can be compared against it. -/
def specAliasPick (entry : JVal) : List String → Option JVal
  | [] => none
  | n :: rest =>
    match getField entry n with
    | some v => some v
    | none => specAliasPick entry rest

/-- Thrust total of a stack as evaluator.js computes it:
`max_thrust_per_motor_g * motor_count`, 0 when propulsion is unresolved. -/
def thrustTotalOf (s : Stack) : ℚ :=
  match s.motorEsc with
  | some m => m.max_thrust_per_motor_g * m.motor_count
  | none => 0

/-- Recognizer for the configured-max-AUW constraint warning. -/
def isMaxAuwWarning : Warning → Bool
  | .maxAuwExceeded _ _ => true
  | _ => false

/-- Recognizer for the minimum-adjusted-thrust-to-weight constraint warning. -/
def isMinTwrWarning : Warning → Bool
  | .minTwrViolated _ _ => true
  | _ => false

/-- Recognizer for the minimum-adjusted-endurance constraint warning. -/
def isMinEnduranceWarning : Warning → Bool
  | .minEnduranceViolated _ _ => true
  | _ => false

/-- Ids carried by the entities of an entity array of a bundle. -/
def entityIds (b : JVal) (k : String) : List JVal :=
  (arrField b k).filterMap (fun p => getField p "id")

/-- Truthy ids carried by the entities of an entity array of a bundle (a
falsy id never keys a merge map in ui.js). -/
def truthyEntityIds (b : JVal) (k : String) : List JVal :=
  (arrField b k).filterMap (fun p =>
    match getField p "id" with
    | some pid => if jsTruthy pid then some pid else none
    | none => none)

/-- Invariant of the merge maps of `buildMissionProjectPayload`: some entry
is keyed by `id` and its value still carries that id. -/
def keepsId (m : List (JVal × JVal)) (id : JVal) : Prop :=
  ∃ kv ∈ m, kv.1 = id ∧ getField kv.2 "id" = some id

/-- Concrete bundle carrying one mesh link under the historical
`mesh_links` field name only. -/
def legacyLinkBundle : JVal :=
  .obj [("mesh_links", .arr [.obj [("id", .str "l1")]])]

/-- Stack with every slot empty (a constructible value of `buildStack`
when no selection resolves). -/
def emptyStack : Stack :=
  { name := "", domain := "ground", frame := none, motorEsc := none,
    flightController := none, vtx := none, rcReceiver := none, rcAntenna := none,
    vtxAntenna := none, auxRadio := none, auxRadioAntenna := none, camera := none,
    battery := none, compute := none, payloads := [], nodePayloads := [],
    missionRole := "", emconPosture := "" }

/-- Sample frame used by concrete instantiations. -/
def sampleFrame : Frame :=
  { weight_grams := 400, cost_usd := 120, max_auw_grams := 3200,
    recommended_battery_s_cells := [4, 6], form_factor := "quad",
    typical_role_tags := ["recon"] }

/-- Sample propulsion set used by concrete instantiations. -/
def sampleMotor : MotorEsc :=
  { weight_grams := 200, cost_usd := 80, max_current_per_motor_a := 10,
    motor_count := 4, max_thrust_per_motor_g := 500,
    voltage_range_s_cells := [4, 6], compatible_frame_form_factors := ["quad"] }

/-- Sample battery used by concrete instantiations. -/
def sampleBattery : Battery :=
  { weight_grams := 100, cost_usd := 40, voltage_nominal := 10,
    capacity_mah := 1000, s_cells := 4 }

/-- Sample compute unit used by concrete instantiations. -/
def sampleComputeUnit : ComputeUnit :=
  { weight_grams := 50, cost_usd := 99, power_draw_typical_w := 5 }

/-- Sample radio link used by concrete instantiations. -/
def sampleRc : RcReceiver :=
  { weight_grams := 10, cost_usd := 20, rf_band_ghz := (24 : ℚ)/10 }

/-- Air-domain stack with propulsion and battery resolved. -/
def sampleStack : Stack :=
  { emptyStack with domain := "air", motorEsc := some sampleMotor, battery := some sampleBattery }

/-- Stack with the four other required slots resolved and the battery
missing. -/
def batteryMissingStack : Stack :=
  { emptyStack with
    frame := some sampleFrame
    motorEsc := some sampleMotor
    compute := some sampleComputeUnit
    rcReceiver := some sampleRc
    battery := none }

/-- Default environment of the UI session. -/
def stdEnv : Environment := { altitude := "sea_level", temperature := "standard" }

/-- Empty constraint set, the `{}` default of `evaluateStack`. -/
def emptyCons : Constraints := { minTwr := none, minEndurance := none, maxAuw := none }

/-- Constraint set with every threshold configured to 0. -/
def zeroCons : Constraints := { minTwr := some 0, minEndurance := some 0, maxAuw := some 0 }

/-- Session state holding one imported platform and one imported node and
nothing locally authored. -/
def c4SampleState : SessionState :=
  { workingCatalog := .obj [],
    importedMissionProject := .obj
      [ ("platforms", .arr [.obj [("id", .str "plt-1")]]),
        ("nodes", .arr [.obj [("id", .str "node-1")]]) ],
    missionMeta := .obj [],
    savedPlatforms := [],
    nodeLibrary := [],
    sessionEnvironment := .obj [("altitude", .str "sea_level"), ("temperature", .str "standard")],
    constraintPrefs := .obj [],
    meshLinks := .arr [],
    kits := .arr [] }

/-- Bundle holding one entry of each entity kind, used to state the
alias-resolution behaviour of the normalizer over arbitrary entries. -/
def aliasProbeBundle (e c n p l k : JVal) : JVal :=
  JVal.obj
    [ ("environment", .arr [e]), ("constraints", .arr [c]), ("nodes", .arr [n]),
      ("platforms", .arr [p]), ("meshLinks", .arr [l]), ("kits", .arr [k]) ]

lemma lookupField_setField_self (fs : List (String × JVal)) (k : String) (v : JVal) :
    lookupField (setField fs k v) k = some v := by
  induction fs with
  | nil => simp [setField, lookupField]
  | cons p rest ih =>
    by_cases h : p.1 == k
    · simp [setField, lookupField, h]
    · simp [setField, lookupField, h, ih]

lemma lookupField_setField_ne (fs : List (String × JVal)) (k k2 : String) (v : JVal)
    (h : k2 ≠ k) : lookupField (setField fs k v) k2 = lookupField fs k2 := by
  have hk : (k == k2) = false := beq_eq_false_iff_ne.mpr (fun e => h e.symm)
  induction fs with
  | nil => simp [setField, lookupField, hk]
  | cons p rest ih =>
    by_cases hp : p.1 == k
    · have hp1 : p.1 = k := eq_of_beq hp
      have hp2 : (p.1 == k2) = false := by rw [hp1]; exact hk
      simp [setField, lookupField, hp, hp2]
    · simp [setField, lookupField, hp, ih]

lemma lookupField_eraseField_self (fs : List (String × JVal)) (k : String) :
    lookupField (eraseField fs k) k = none := by
  induction fs with
  | nil => simp [eraseField, lookupField]
  | cons p rest ih =>
    by_cases h : p.1 == k
    · simp [eraseField, h, ih]
    · simp [eraseField, lookupField, h, ih]

lemma lookupField_eraseField_ne (fs : List (String × JVal)) (k k2 : String)
    (h : k2 ≠ k) : lookupField (eraseField fs k) k2 = lookupField fs k2 := by
  induction fs with
  | nil => simp [eraseField]
  | cons p rest ih =>
    by_cases hp : p.1 == k
    · have hp1 : p.1 = k := eq_of_beq hp
      have hp2 : (p.1 == k2) = false := by
        rw [hp1]; exact beq_eq_false_iff_ne.mpr (fun e => h e.symm)
      simp [eraseField, lookupField, hp, hp2, ih]
    · simp [eraseField, lookupField, hp, ih]

lemma lookupField_applyField_self (fs : List (String × JVal)) (k : String) (o : Option JVal) :
    lookupField (applyField fs k o) k = o := by
  cases o with
  | some v => exact lookupField_setField_self fs k v
  | none => exact lookupField_eraseField_self fs k

lemma lookupField_applyField_ne (fs : List (String × JVal)) (k k2 : String) (o : Option JVal)
    (h : k2 ≠ k) : lookupField (applyField fs k o) k2 = lookupField fs k2 := by
  cases o with
  | some v => exact lookupField_setField_ne fs k k2 v h
  | none => exact lookupField_eraseField_ne fs k k2 h

lemma getField_obj (fs : List (String × JVal)) (k : String) :
    getField (JVal.obj fs) k = lookupField fs k := rfl

lemma sumBy_shift (f : α → ℚ) (l : List α) (a : ℚ) :
    l.foldl (fun acc x => acc + f x) a = a + sumBy l f := by
  induction l generalizing a with
  | nil => simp [sumBy]
  | cons x xs ih =>
    show List.foldl (fun acc y => acc + f y) (a + f x) xs = a + sumBy (x :: xs) f
    rw [ih (a + f x),
      show sumBy (x :: xs) f = List.foldl (fun acc y => acc + f y) ((0 : ℚ) + f x) xs from rfl,
      ih ((0 : ℚ) + f x)]
    ring

lemma sumBy_cons (f : α → ℚ) (x : α) (l : List α) :
    sumBy (x :: l) f = f x + sumBy l f := by
  show l.foldl _ ((0 : ℚ) + f x) = f x + sumBy l f
  rw [sumBy_shift]
  ring

lemma sumBy_nil (f : α → ℚ) : sumBy ([] : List α) f = 0 := rfl

lemma sumBy_append (f : α → ℚ) (l1 l2 : List α) :
    sumBy (l1 ++ l2) f = sumBy l1 f + sumBy l2 f := by
  induction l1 with
  | nil => simp [sumBy_nil, sumBy]
  | cons x xs ih => simp [sumBy_cons, ih]; ring

lemma resolveAltitude_mem (id : String) : resolveAltitude id ∈ altitudeBands := by
  unfold resolveAltitude
  cases h : altitudeBands.find? (fun b => b.id == id) with
  | some b =>
    simp only [Option.getD_some]
    exact List.mem_of_find?_eq_some h
  | none =>
    simp only [Option.getD_none]
    show seaLevelBand ∈ altitudeBands
    unfold altitudeBands
    exact List.mem_cons_self _ _

lemma altitudeBands_thrustEfficiency (b : AltitudeBand) (hb : b ∈ altitudeBands) :
    0 ≤ b.thrustEfficiency ∧ b.thrustEfficiency ≤ 1 := by
  unfold altitudeBands at hb
  rcases List.mem_cons.mp hb with rfl | hb1
  · constructor <;> norm_num [seaLevelBand]
  rcases List.mem_cons.mp hb1 with rfl | hb2
  · constructor <;> norm_num
  rcases List.mem_cons.mp hb2 with rfl | hb3
  · constructor <;> norm_num
  · cases hb3

lemma getField_of_untruthy (e : JVal) (h : jsTruthy e = false) (n : String) :
    getField e n = none := by
  cases e with
  | obj fs => simp [jsTruthy] at h
  | str s => rfl
  | num q => rfl
  | boolean b => rfl
  | null => rfl
  | arr xs => rfl

lemma pickField_eq_specAliasPick (e : JVal) (ns : List String) :
    pickField e ns = specAliasPick e ns := by
  induction ns with
  | nil => rfl
  | cons a as ih =>
    by_cases h : jsTruthy e
    · cases hg : getField e a with
      | some v => simp [pickField, specAliasPick, h, hg]
      | none => simp [pickField, specAliasPick, h, hg, ih]
    · rw [Bool.not_eq_true] at h
      simp [pickField, specAliasPick, h, getField_of_untruthy e h, ih]

lemma jsStrictEq_eq {a b : JVal} (h : jsStrictEq a b = true) : a = b := by
  cases a <;> cases b <;> simp_all [jsStrictEq]

lemma foldl_pres {α β : Type} (step : β → α → β) (P : β → Prop) (l : List α) (b : β)
    (hpres : ∀ m a, a ∈ l → P m → P (step m a)) (hb : P b) : P (l.foldl step b) := by
  induction l generalizing b with
  | nil => exact hb
  | cons x xs ih =>
    exact ih _ (fun m a ha hm => hpres m a (List.mem_cons_of_mem _ ha) hm)
      (hpres b x (List.mem_cons_self _ _) hb)

lemma foldl_reach {α β : Type} (step : β → α → β) (P : β → Prop) (l : List α) (x : α)
    (hadd : ∀ m, P (step m x)) :
    ∀ (b : β), x ∈ l → (∀ m a, a ∈ l → P m → P (step m a)) → P (l.foldl step b) := by
  induction l with
  | nil => intro b hx _; cases hx
  | cons y ys ih =>
    intro b hx hpres
    rcases List.mem_cons.mp hx with rfl | hx2
    · exact foldl_pres step P ys (step b x)
        (fun m a ha hm => hpres m a (List.mem_cons_of_mem _ ha) hm)
        (hadd b)
    · exact ih (step b y) hx2 (fun m a ha hm => hpres m a (List.mem_cons_of_mem _ ha) hm)

lemma mapSet_keepsId (m : List (JVal × JVal)) (k v id : JVal)
    (hv : getField v "id" = some k) (h : keepsId m id) : keepsId (mapSet m k v) id := by
  obtain ⟨kv, hmem, hk, hid⟩ := h
  unfold mapSet
  by_cases hany : m.any (fun e => jsStrictEq e.1 k)
  · rw [if_pos hany]
    refine ⟨(fun e => if jsStrictEq e.1 k then (e.1, v) else e) kv,
      List.mem_map_of_mem _ hmem, ?_⟩
    by_cases hs : jsStrictEq kv.1 k
    · have hkk : kv.1 = k := jsStrictEq_eq hs
      simp only [hs, if_pos]
      exact ⟨hk, by rw [hv, ← hkk, hk]⟩
    · simp only [hs, Bool.false_eq_true, if_false]
      exact ⟨hk, hid⟩
  · rw [if_neg hany]
    exact ⟨kv, List.mem_append_left _ hmem, hk, hid⟩

lemma mapSet_adds (m : List (JVal × JVal)) (k v : JVal)
    (hv : getField v "id" = some k) : keepsId (mapSet m k v) k := by
  unfold mapSet
  by_cases hany : m.any (fun e => jsStrictEq e.1 k)
  · rw [if_pos hany]
    obtain ⟨e, hmem, he⟩ := List.any_eq_true.mp hany
    refine ⟨(fun q => if jsStrictEq q.1 k then (q.1, v) else q) e,
      List.mem_map_of_mem _ hmem, ?_⟩
    have hek : e.1 = k := jsStrictEq_eq he
    simp only [he, if_pos]
    exact ⟨hek, by rw [hv]⟩
  · rw [if_neg hany]
    exact ⟨(k, v), List.mem_append_right _ (List.mem_singleton.mpr rfl), rfl, hv⟩

lemma baseIdStep_pres (m : List (JVal × JVal)) (a id : JVal) (h : keepsId m id) :
    keepsId (baseIdStep m a) id := by
  cases hid : getField a "id" with
  | some pid =>
    by_cases ht : jsTruthy pid
    · simpa [baseIdStep, hid, ht] using mapSet_keepsId m pid a id hid h
    · simpa [baseIdStep, hid, ht] using h
  | none => simpa [baseIdStep, hid] using h

lemma mem_keys_setField (fs : List (String × JVal)) (k : String) (v : JVal) (k2 : String)
    (h : k2 ∈ (setField fs k v).map Prod.fst) : k2 ∈ fs.map Prod.fst ∨ k2 = k := by
  induction fs with
  | nil =>
    simp [setField] at h
    exact Or.inr h
  | cons p rest ih =>
    by_cases hp : p.1 == k
    · simp only [setField, hp, if_pos, List.map_cons, List.mem_cons] at h ⊢
      exact Or.inl h
    · simp only [setField, hp, Bool.false_eq_true, if_false, List.map_cons, List.mem_cons] at h ⊢
      rcases h with h | h
      · exact Or.inl (Or.inl h)
      · rcases ih h with h2 | h2
        · exact Or.inl (Or.inr h2)
        · exact Or.inr h2

lemma keys_nodup_setField (fs : List (String × JVal)) (k : String) (v : JVal)
    (h : (fs.map Prod.fst).Nodup) : ((setField fs k v).map Prod.fst).Nodup := by
  induction fs with
  | nil => simp [setField]
  | cons p rest ih =>
    simp only [List.map_cons, List.nodup_cons] at h
    obtain ⟨hnp, hnr⟩ := h
    by_cases hp : p.1 == k
    · simp only [setField, hp, if_pos, List.map_cons, List.nodup_cons]
      exact ⟨hnp, hnr⟩
    · simp only [setField, hp, Bool.false_eq_true, if_false, List.map_cons, List.nodup_cons]
      refine ⟨?_, ih hnr⟩
      intro hmem
      rcases mem_keys_setField rest k v p.1 hmem with h2 | h2
      · exact hnp h2
      · exact absurd (beq_iff_eq.mpr h2) (by simpa using hp)

lemma keys_sublist_eraseField (fs : List (String × JVal)) (k : String) :
    ((eraseField fs k).map Prod.fst).Sublist (fs.map Prod.fst) := by
  induction fs with
  | nil => simp [eraseField]
  | cons p rest ih =>
    by_cases hp : p.1 == k
    · simp only [eraseField, hp, if_pos]
      exact ih.trans (List.sublist_cons_self _ _)
    · simp only [eraseField, hp, Bool.false_eq_true, if_false, List.map_cons]
      exact ih.cons₂ _

lemma keys_nodup_applyField (fs : List (String × JVal)) (k : String) (o : Option JVal)
    (h : (fs.map Prod.fst).Nodup) : ((applyField fs k o).map Prod.fst).Nodup := by
  cases o with
  | some v => exact keys_nodup_setField fs k v h
  | none => exact (keys_sublist_eraseField fs k).nodup h

lemma keys_nodup_objOf (fields : List (String × Option JVal)) :
    ((objFields (objOf fields)).map Prod.fst).Nodup := by
  show ((fields.foldl (fun fs p => applyField fs p.1 p.2) []).map Prod.fst).Nodup
  exact foldl_pres _ (fun fs => (fs.map Prod.fst).Nodup) fields []
    (fun m a _ hm => keys_nodup_applyField m a.1 a.2 hm) (by simp)

lemma lookup_foldl_setField_not_mem (fields : List (String × JVal))
    (init : List (String × JVal)) (k : String) (hk : k ∉ fields.map Prod.fst) :
    lookupField (fields.foldl (fun fs q => setField fs q.1 q.2) init) k = lookupField init k := by
  induction fields generalizing init with
  | nil => rfl
  | cons q rest ih =>
    simp only [List.map_cons, List.mem_cons, not_or] at hk
    rw [List.foldl_cons, ih _ (by exact hk.2)]
    exact lookupField_setField_ne init q.1 k q.2 hk.1

lemma lookup_foldl_setField_of_lookup (fields : List (String × JVal))
    (init : List (String × JVal)) (k : String) (v : JVal)
    (hv : lookupField fields k = some v) (hn : (fields.map Prod.fst).Nodup) :
    lookupField (fields.foldl (fun fs q => setField fs q.1 q.2) init) k = some v := by
  induction fields generalizing init with
  | nil => simp [lookupField] at hv
  | cons q rest ih =>
    simp only [List.map_cons, List.nodup_cons] at hn
    obtain ⟨hq, hrest⟩ := hn
    by_cases hqk : q.1 == k
    · have hq1 : q.1 = k := eq_of_beq hqk
      have hv2 : v = q.2 := by
        simp only [lookupField, hqk, if_pos] at hv
        exact (Option.some.injEq _ _ ▸ hv).symm
      have hkrest : k ∉ rest.map Prod.fst := hq1 ▸ hq
      rw [List.foldl_cons, lookup_foldl_setField_not_mem rest _ k hkrest, hq1,
        lookupField_setField_self, hv2]
    · simp only [lookupField, hqk, Bool.false_eq_true, if_false] at hv
      rw [List.foldl_cons]
      exact ih _ hv hrest

lemma getField_mergeVals_of_id (x p : JVal) (pid : JVal)
    (hp : getField p "id" = some pid) (hn : ((objFields p).map Prod.fst).Nodup) :
    getField (mergeVals x p) "id" = some pid := by
  cases p with
  | obj fs => exact lookup_foldl_setField_of_lookup fs _ "id" pid hp hn
  | str s => simp [getField] at hp
  | num q => simp [getField] at hp
  | boolean b => simp [getField] at hp
  | null => simp [getField] at hp
  | arr xs => simp [getField] at hp

lemma snapshot_keys_nodup (e a b c : JVal) :
    ((objFields (snapshotToPlatform e a b c)).map Prod.fst).Nodup := by
  simp only [snapshotToPlatform]
  exact keys_nodup_objOf _

lemma platformOverlayStep_pres (m : List (JVal × JVal)) (id a : JVal)
    (hn : ((objFields a).map Prod.fst).Nodup) (h : keepsId m id) :
    keepsId (platformOverlayStep m a) id := by
  cases hid : getField a "id" with
  | some pid =>
    by_cases ht : jsTruthy pid
    · have hmerged : getField (mergeVals (jsOr (mapGet m pid) (.obj [])) a) "id" = some pid :=
        getField_mergeVals_of_id _ a pid hid hn
      simpa [platformOverlayStep, hid, ht] using mapSet_keepsId m pid _ id hmerged h
    · simpa [platformOverlayStep, hid, ht] using h
  | none => simpa [platformOverlayStep, hid] using h

lemma nodeMerged_id (m : List (JVal × JVal)) (n nid : JVal) :
    getField (nodeMerged m n nid) "id" = some nid := by
  simp only [nodeMerged, objLit, getField_obj, List.foldl_cons, List.foldl_nil]
  rw [lookupField_applyField_ne _ _ _ _ (by decide),
    lookupField_applyField_ne _ _ _ _ (by decide),
    lookupField_applyField_ne _ _ _ _ (by decide),
    lookupField_applyField_ne _ _ _ _ (by decide),
    lookupField_applyField_ne _ _ _ _ (by decide),
    lookupField_applyField_ne _ _ _ _ (by decide),
    lookupField_applyField_ne _ _ _ _ (by decide),
    lookupField_applyField_ne _ _ _ _ (by decide),
    lookupField_applyField_self]

lemma nodeOverlayStep_pres (m : List (JVal × JVal)) (id n : JVal) (h : keepsId m id) :
    keepsId (nodeOverlayStep m n) id := by
  cases hid : getField n "id" with
  | some nid =>
    by_cases ht : jsTruthy nid
    · simpa [nodeOverlayStep, hid, ht] using
        mapSet_keepsId m nid _ id (nodeMerged_id m n nid) h
    · simpa [nodeOverlayStep, hid, ht] using h
  | none => simpa [nodeOverlayStep, hid] using h

lemma keepsId_baseFold (entities : List JVal) (id p : JVal) (hp : p ∈ entities)
    (hid : getField p "id" = some id) (ht : jsTruthy id) (m0 : List (JVal × JVal)) :
    keepsId (entities.foldl baseIdStep m0) id := by
  refine foldl_reach baseIdStep (fun m => keepsId m id) entities p ?_ m0 hp
    (fun m a _ hm => baseIdStep_pres m a id hm)
  intro m
  simpa [baseIdStep, hid, ht] using mapSet_adds m id p hid

lemma evaluateStack_thrustToWeight (s : Stack) (env : Environment) (cons : Constraints) :
    (evaluateStack s env cons).thrustToWeight
      = if 0 < (evaluateStack s env cons).totalWeight
        then thrustTotalOf s / (evaluateStack s env cons).totalWeight else 0 := rfl

lemma evaluateStack_adjustedThrustToWeight (s : Stack) (env : Environment) (cons : Constraints) :
    (evaluateStack s env cons).adjustedThrustToWeight
      = if 0 < (evaluateStack s env cons).totalWeight
        then thrustTotalOf s *
              (resolveAltitude (if env.altitude = "" then "sea_level" else env.altitude)).thrustEfficiency
            / (evaluateStack s env cons).totalWeight
        else 0 := rfl

/-- C1: the MissionProject normalizer is not idempotent.  On a bundle that
carries one entry under the historical `mesh_links` field name, the first
normalization produces a `meshLinks` array with that one entry while
keeping `mesh_links`, and the second normalization concatenates the two
again, duplicating the entry — so normalizing twice differs from
normalizing once, contradicting the stated idempotence contract. -/
theorem c1_normalizer_duplicates_legacy_mesh_links :
    getField (upgradeMissionBundle legacyLinkBundle) "meshLinks"
        = some (JVal.arr [JVal.obj [("id", JVal.str "l1")]])
    ∧ getField (upgradeMissionBundle (upgradeMissionBundle legacyLinkBundle)) "meshLinks"
        = some (JVal.arr [JVal.obj [("id", JVal.str "l1")], JVal.obj [("id", JVal.str "l1")]])
    ∧ upgradeMissionBundle (upgradeMissionBundle legacyLinkBundle)
        ≠ upgradeMissionBundle legacyLinkBundle := by
  refine ⟨rfl, rfl, ?_⟩
  intro h
  have e1 : getField (upgradeMissionBundle (upgradeMissionBundle legacyLinkBundle)) "meshLinks"
      = some (JVal.arr [JVal.obj [("id", JVal.str "l1")], JVal.obj [("id", JVal.str "l1")]]) := rfl
  rw [h] at e1
  have e2 : getField (upgradeMissionBundle legacyLinkBundle) "meshLinks"
      = some (JVal.arr [JVal.obj [("id", JVal.str "l1")]]) := rfl
  rw [e2] at e1
  simp at e1

/-- C2: counterexample.  The claim says an absent receiver and an absent
flight controller contribute nothing to the avionics-power term; on the
stack with every optional component absent the code still charges the
0.8 W receiver baseline and the 1 W flight-controller baseline, so the
avionics power is 1.8 W, not 0. -/
theorem c2_counterexample_absent_baselines :
    avionicsPower emptyStack ≠ 0 ∧ avionicsPower emptyStack = (9 : ℚ)/5 := by
  constructor
  · norm_num [avionicsPower, emptyStack]
  · norm_num [avionicsPower, emptyStack]

/-- C2 amended: the receiver and flight-controller terms of avionics power
are two-valued rather than zero-on-absence — with the receiver, flight
controller, compute unit, auxiliary radio and video link all absent, the
avionics power is exactly the fixed 0.8 W + 1 W baseline (absent compute,
auxiliary radio and video link do contribute zero). -/
theorem c2_amended_avionics_baselines (s : Stack)
    (h1 : s.rcReceiver = none) (h2 : s.flightController = none)
    (h3 : s.compute = none) (h4 : s.auxRadio = none) (h5 : s.vtx = none) :
    avionicsPower s = (8 : ℚ)/10 + 1 := by
  simp [avionicsPower, h1, h2, h3, h4, h5]

/-- C2 amended, witness at the all-empty stack. -/
theorem c2_amended_avionics_baselines_witness :
    avionicsPower emptyStack = (8 : ℚ)/10 + 1 :=
  c2_amended_avionics_baselines emptyStack rfl rfl rfl rfl rfl

/-- C10: the evaluator is total on stacks with missing required slots and
degrades to zero: a null battery gives zero usable energy and zero nominal
and adjusted endurance, and a null propulsion unit gives zero nominal and
adjusted thrust-to-weight; no path is partial in the model. -/
theorem c10_total_on_missing_required_slots (s : Stack) (env : Environment)
    (cons : Constraints) :
    (s.battery = none →
      calculateEnergyWh s.battery = 0
      ∧ (evaluateStack s env cons).enduranceMinutes = 0
      ∧ (evaluateStack s env cons).adjustedEnduranceMinutes = 0)
    ∧ (s.motorEsc = none →
      (evaluateStack s env cons).thrustToWeight = 0
      ∧ (evaluateStack s env cons).adjustedThrustToWeight = 0) := by
  constructor
  · intro hb
    refine ⟨by simp [hb, calculateEnergyWh], ?_, ?_⟩
    · simp only [evaluateStack, hb, calculateEnergyWh]
      split <;> simp
    · simp only [evaluateStack, hb, calculateEnergyWh]
      split <;> simp
  · intro hm
    constructor
    · simp only [evaluateStack, hm]
      split <;> simp
    · simp only [evaluateStack, hm]
      split <;> simp

/-- C10, witness at the all-empty stack. -/
theorem c10_total_on_missing_required_slots_witness :
    calculateEnergyWh emptyStack.battery = 0
    ∧ (evaluateStack emptyStack stdEnv emptyCons).enduranceMinutes = 0
    ∧ (evaluateStack emptyStack stdEnv emptyCons).adjustedEnduranceMinutes = 0
    ∧ (evaluateStack emptyStack stdEnv emptyCons).thrustToWeight = 0
    ∧ (evaluateStack emptyStack stdEnv emptyCons).adjustedThrustToWeight = 0 := by
  obtain ⟨h1, h2⟩ := c10_total_on_missing_required_slots emptyStack stdEnv emptyCons
  obtain ⟨a, b, c⟩ := h1 rfl
  obtain ⟨d, e⟩ := h2 rfl
  exact ⟨a, b, c, d, e⟩

/-- C5: with propulsion and battery resolved and a nonnegative total
weight (catalog masses are nonnegative), the nominal thrust-to-weight of
the evaluation result equals thrust total (max thrust per motor times
motor count) divided by total weight, and both the nominal and the
environment-adjusted ratios are 0 when the total weight is 0. -/
theorem c5_thrust_to_weight_ratio (s : Stack) (env : Environment) (cons : Constraints)
    (m : MotorEsc) (b : Battery) (hm : s.motorEsc = some m) (_hb : s.battery = some b)
    (hW : 0 ≤ (evaluateStack s env cons).totalWeight) :
    (evaluateStack s env cons).thrustToWeight
        = m.max_thrust_per_motor_g * m.motor_count / (evaluateStack s env cons).totalWeight
    ∧ ((evaluateStack s env cons).totalWeight = 0 →
        (evaluateStack s env cons).thrustToWeight = 0
        ∧ (evaluateStack s env cons).adjustedThrustToWeight = 0) := by
  have hT : thrustTotalOf s = m.max_thrust_per_motor_g * m.motor_count := by
    simp [thrustTotalOf, hm]
  rcases eq_or_lt_of_le hW with heq | hpos
  · have hW0 : (evaluateStack s env cons).totalWeight = 0 := heq.symm
    constructor
    · rw [evaluateStack_thrustToWeight, hW0]
      simp
    · intro _
      rw [evaluateStack_thrustToWeight, evaluateStack_adjustedThrustToWeight, hW0]
      simp
  · constructor
    · rw [evaluateStack_thrustToWeight, if_pos hpos, hT]
    · intro h0
      rw [h0] at hpos
      exact absurd hpos (lt_irrefl 0)

/-- C5, witness at a stack with resolved propulsion and battery and total
weight 300 g. -/
theorem c5_thrust_to_weight_ratio_witness :
    (evaluateStack sampleStack stdEnv emptyCons).thrustToWeight
        = sampleMotor.max_thrust_per_motor_g * sampleMotor.motor_count
            / (evaluateStack sampleStack stdEnv emptyCons).totalWeight
    ∧ ((evaluateStack sampleStack stdEnv emptyCons).totalWeight = 0 →
        (evaluateStack sampleStack stdEnv emptyCons).thrustToWeight = 0
        ∧ (evaluateStack sampleStack stdEnv emptyCons).adjustedThrustToWeight = 0) :=
  c5_thrust_to_weight_ratio sampleStack stdEnv emptyCons sampleMotor sampleBattery rfl rfl
    (by norm_num [evaluateStack, sumBy_cons, sumBy_nil, slotWeight, sampleStack, emptyStack,
      sampleMotor, sampleBattery])

/-- C6: the altitude table only carries thrust-efficiency multipliers at
most 1, and for a nonnegative thrust total (catalog thrust figures are
nonnegative) the environment-adjusted thrust-to-weight never exceeds the
nominal one. -/
theorem c6_adjusted_le_nominal (s : Stack) (env : Environment) (cons : Constraints)
    (hT : 0 ≤ thrustTotalOf s) :
    (∀ b ∈ altitudeBands, b.thrustEfficiency ≤ 1)
    ∧ (evaluateStack s env cons).adjustedThrustToWeight
        ≤ (evaluateStack s env cons).thrustToWeight := by
  refine ⟨fun b hb => (altitudeBands_thrustEfficiency b hb).2, ?_⟩
  rw [evaluateStack_thrustToWeight, evaluateStack_adjustedThrustToWeight]
  by_cases hpos : 0 < (evaluateStack s env cons).totalWeight
  · rw [if_pos hpos, if_pos hpos]
    have hband := resolveAltitude_mem (if env.altitude = "" then "sea_level" else env.altitude)
    have heff := (altitudeBands_thrustEfficiency _ hband).2
    have hmul : thrustTotalOf s *
        (resolveAltitude (if env.altitude = "" then "sea_level" else env.altitude)).thrustEfficiency
        ≤ thrustTotalOf s := mul_le_of_le_one_right hT heff
    exact (div_le_div_iff_of_pos_right hpos).mpr hmul
  · rw [if_neg hpos, if_neg hpos]

/-- C6, witness at the sample stack (thrust total 2000 g). -/
theorem c6_adjusted_le_nominal_witness :
    (evaluateStack sampleStack stdEnv emptyCons).adjustedThrustToWeight
      ≤ (evaluateStack sampleStack stdEnv emptyCons).thrustToWeight :=
  (c6_adjusted_le_nominal sampleStack stdEnv emptyCons
    (by norm_num [thrustTotalOf, sampleStack, sampleMotor])).2

/-- C7: node payloads price at zero while still weighing and drawing
power — replacing the node-payload slot changes neither the total cost,
while total weight, power budget and payload mass each grow by exactly the
node payloads' sums; and appending a catalog payload grows the total cost
by exactly its cost. -/
theorem c7_node_payloads_cost_nothing (s : Stack) (env : Environment) (cons : Constraints)
    (nps : List NodeDesign) (pl : Payload) :
    (evaluateStack { s with nodePayloads := nps } env cons).totalCost
        = (evaluateStack { s with nodePayloads := [] } env cons).totalCost
    ∧ (evaluateStack { s with nodePayloads := nps } env cons).totalWeight
        = (evaluateStack { s with nodePayloads := [] } env cons).totalWeight
          + sumBy nps (fun p => p.weight_grams)
    ∧ (evaluateStack { s with nodePayloads := nps } env cons).powerBudget
        = (evaluateStack { s with nodePayloads := [] } env cons).powerBudget
          + sumBy nps (fun p => p.power_draw_typical_w)
    ∧ (evaluateStack { s with nodePayloads := nps } env cons).payloadMass
        = (evaluateStack { s with nodePayloads := [] } env cons).payloadMass
          + sumBy nps (fun p => p.weight_grams)
    ∧ (evaluateStack { s with payloads := s.payloads ++ [pl] } env cons).totalCost
        = (evaluateStack s env cons).totalCost + pl.cost_usd := by
  refine ⟨rfl, ?_, ?_, ?_, ?_⟩
  · simp only [evaluateStack, sumBy_cons, sumBy_nil]
    ring
  · simp only [evaluateStack, propulsionPower, avionicsPower, sumBy_cons, sumBy_nil]
    ring
  · simp only [evaluateStack, sumBy_cons, sumBy_nil]
    ring
  · simp only [evaluateStack, sumBy_append, sumBy_cons, sumBy_nil]
    ring

/-- C8: a stack without a battery is gated: `missingRequiredParts` lists
"Battery", the evaluation handler stores no numeric result, and when the
other four required slots are present the missing list is exactly
["Battery"]. -/
theorem c8_battery_gating (s : Stack) (env : Environment) (cons : Constraints)
    (hb : s.battery = none) :
    "Battery" ∈ missingRequiredParts s
    ∧ evaluateAndRenderResult s env cons = none
    ∧ (s.frame.isSome = true → s.motorEsc.isSome = true → s.compute.isSome = true →
        s.rcReceiver.isSome = true → missingRequiredParts s = ["Battery"]) := by
  have hmem : "Battery" ∈ missingRequiredParts s := by
    unfold missingRequiredParts
    refine List.mem_map.mpr ⟨("Battery", fun st => st.battery.isSome), ?_, rfl⟩
    exact List.mem_filter.mpr ⟨by simp [requiredParts], by simp [hb]⟩
  refine ⟨hmem, ?_, ?_⟩
  · unfold evaluateAndRenderResult
    cases hl : missingRequiredParts s with
    | nil => rw [hl] at hmem; cases hmem
    | cons a l => simp only [hl]
  · intro hf hm2 hc hr
    simp [missingRequiredParts, requiredParts, hb, hf, hm2, hc, hr]

/-- C8, witness at a stack with the four other required slots resolved. -/
theorem c8_battery_gating_witness :
    "Battery" ∈ missingRequiredParts batteryMissingStack
    ∧ evaluateAndRenderResult batteryMissingStack stdEnv emptyCons = none
    ∧ missingRequiredParts batteryMissingStack = ["Battery"] := by
  obtain ⟨a, b, c⟩ := c8_battery_gating batteryMissingStack stdEnv emptyCons rfl
  exact ⟨a, b, c rfl rfl rfl rfl⟩

set_option maxHeartbeats 1000000 in
lemma evaluateStack_warnings (s : Stack) (env : Environment) (cons : Constraints) :
    (evaluateStack s env cons).warnings =
    (match s.frame, s.battery with
     | some f, some b =>
        if b.s_cells ∈ f.recommended_battery_s_cells then [] else [Warning.batteryCellsFrame]
     | _, _ => []) ++
    (match s.motorEsc, s.battery with
     | some m, some b =>
        if b.s_cells ∈ m.voltage_range_s_cells then [] else [Warning.batteryCellsMotor]
     | _, _ => []) ++
    (if s.frame.isSome ∧ (evaluateStack s env cons).payloadCapacity ≠ 0
        ∧ (evaluateStack s env cons).payloadCapacity < (evaluateStack s env cons).totalWeight
      then [Warning.auwExceedsFrame] else []) ++
    (if s.domain = "air" ∧ (evaluateStack s env cons).thrustToWeight < (13 : ℚ)/10
      then [Warning.twrUnder] else []) ++
    (if s.domain = "air" ∧ (evaluateStack s env cons).adjustedThrustToWeight < (13 : ℚ)/10
      then [Warning.adjustedTwrUnder]
     else if s.domain = "air" ∧ (evaluateStack s env cons).adjustedThrustToWeight < (14 : ℚ)/10
      then [Warning.adjustedTwrThin]
     else []) ++
    (match s.motorEsc, s.frame with
     | some m, some f =>
        if f.form_factor ∈ m.compatible_frame_form_factors then [] else [Warning.frameFormFactor]
     | _, _ => []) ++
    (match s.vtx, s.vtxAntenna with
     | some v, some a =>
        if (1 : ℚ)/2 < |v.rf_band_ghz - a.rf_band_ghz| then [Warning.vtxAntennaMismatch] else []
     | _, _ => []) ++
    (match s.rcReceiver, s.rcAntenna with
     | some r, some a =>
        if (1 : ℚ)/2 < |r.rf_band_ghz - a.rf_band_ghz| then [Warning.rcAntennaMismatch] else []
     | _, _ => []) ++
    (match s.auxRadio, s.auxRadioAntenna with
     | some r, some a =>
        if (1 : ℚ)/2 < |r.rf_band_ghz - a.rf_band_ghz| then [Warning.auxAntennaMismatch] else []
     | _, _ => []) ++
    (match cons.maxAuw with
     | some v =>
        if v ≠ 0 ∧ v * 1000 < (evaluateStack s env cons).totalWeight
          then [Warning.maxAuwExceeded ((evaluateStack s env cons).totalWeight) v] else []
     | none => []) ++
    (match cons.minTwr with
     | some v =>
        if v ≠ 0 ∧ (evaluateStack s env cons).adjustedThrustToWeight < v
          then [Warning.minTwrViolated ((evaluateStack s env cons).adjustedThrustToWeight) v]
          else []
     | none => []) ++
    (match cons.minEndurance with
     | some v =>
        if v ≠ 0 ∧ (evaluateStack s env cons).adjustedEnduranceMinutes < v
          then [Warning.minEnduranceViolated ((evaluateStack s env cons).adjustedEnduranceMinutes) v]
          else []
     | none => []) := rfl

/-- C9: a constraint threshold configured to 0 is treated as absent — with
`maxAuw = 0` (resp. `minTwr = 0`, `minEndurance = 0`) the evaluation never
emits the corresponding constraint-violation warning, whatever the
computed weight, thrust-to-weight or endurance. -/
theorem c9_zero_threshold_disables_constraint (s : Stack) (env : Environment)
    (cons : Constraints) :
    (cons.maxAuw = some 0 →
      ((evaluateStack s env cons).warnings.all (fun w => !isMaxAuwWarning w)) = true)
    ∧ (cons.minTwr = some 0 →
      ((evaluateStack s env cons).warnings.all (fun w => !isMinTwrWarning w)) = true)
    ∧ (cons.minEndurance = some 0 →
      ((evaluateStack s env cons).warnings.all (fun w => !isMinEnduranceWarning w)) = true) := by
  refine ⟨?_, ?_, ?_⟩ <;> intro h <;>
    rw [evaluateStack_warnings, h] <;>
    simp only [List.all_append, Bool.and_eq_true] <;>
    and_intros <;> (repeat' split) <;>
    simp_all [isMaxAuwWarning, isMinTwrWarning, isMinEnduranceWarning]

/-- C9, witness: all three thresholds configured to 0 on the sample
air-domain stack. -/
theorem c9_zero_threshold_disables_constraint_witness :
    ((evaluateStack sampleStack stdEnv zeroCons).warnings.all (fun w => !isMaxAuwWarning w)) = true
    ∧ ((evaluateStack sampleStack stdEnv zeroCons).warnings.all (fun w => !isMinTwrWarning w)) = true
    ∧ ((evaluateStack sampleStack stdEnv zeroCons).warnings.all
        (fun w => !isMinEnduranceWarning w)) = true := by
  obtain ⟨a, b, c⟩ := c9_zero_threshold_disables_constraint sampleStack stdEnv zeroCons
  exact ⟨a rfl, b rfl, c rfl⟩

lemma upgrade_aliasProbe (e c n p l k : JVal) :
    upgradeMissionBundle (aliasProbeBundle e c n p l k) = JVal.obj
      [ ("environment", .arr [mapEnv e]), ("constraints", .arr [mapConstraint c]),
        ("nodes", .arr [mapNode n]), ("platforms", .arr [mapPlatform p]),
        ("meshLinks", .arr [mapLink l]), ("kits", .arr [mapKit k]),
        ("schemaVersion", .str "2.0.0"), ("version", .str "2.0.0") ] := rfl

/-- C3: counterexample.  The claim says the normalizer never invents a
value when no alias is present, in particular that it does not default
`schemaVersion`/`version` nor absent role fields; on the empty bundle the
code writes `schemaVersion` and `version` as "2.0.0", and an entirely
empty node entry comes out with `role` defaulted to the empty array. -/
theorem c3_counterexample_normalizer_defaults :
    getField (upgradeMissionBundle (JVal.obj [])) "schemaVersion" = some (JVal.str "2.0.0")
    ∧ getField (upgradeMissionBundle (JVal.obj [])) "version" = some (JVal.str "2.0.0")
    ∧ getField (upgradeMissionBundle (JVal.obj [("nodes", JVal.arr [JVal.obj []])])) "nodes"
        = some (JVal.arr [JVal.obj [("role", JVal.arr [])]]) :=
  ⟨rfl, rfl, rfl⟩

/-- C3 amended: for every entity entry, each canonical field of every
entity type of the normalized entry is the first defined alias in the
fixed priority order of the source (and stays undefined when no alias is
present) — including the three-alias platform `adjustedThrustToWeight`
fallback — with these exceptions forced by the code: `schemaVersion` and
`version` are defaulted to "2.0.0", and the node `role` field and the
platform list fields (`mountedNodeIds`, `payloadIds`, `rfBandsGhz`,
`missionRoles`, `intendedRoles`) are defaulted to the empty array when
absent or falsy. -/
theorem c3_amended_alias_resolution (e c n p l k : JVal) :
    ∃ e2 c2 n2 p2 l2 k2,
      getField (upgradeMissionBundle (aliasProbeBundle e c n p l k)) "schemaVersion"
          = some (JVal.str "2.0.0")
      ∧ getField (upgradeMissionBundle (aliasProbeBundle e c n p l k)) "version"
          = some (JVal.str "2.0.0")
      ∧ getField (upgradeMissionBundle (aliasProbeBundle e c n p l k)) "environment"
          = some (JVal.arr [e2])
      ∧ getField e2 "altitudeBand" = specAliasPick e ["altitudeBand", "altitude_band"]
      ∧ getField e2 "temperatureBand" = specAliasPick e ["temperatureBand", "temperature_band"]
      ∧ getField (upgradeMissionBundle (aliasProbeBundle e c n p l k)) "constraints"
          = some (JVal.arr [c2])
      ∧ getField c2 "minThrustToWeight" = specAliasPick c ["minThrustToWeight", "min_thrust_to_weight"]
      ∧ getField c2 "minAdjustedEnduranceMin"
          = specAliasPick c ["minAdjustedEnduranceMin", "min_adjusted_endurance_min"]
      ∧ getField c2 "maxAuwKg" = specAliasPick c ["maxAuwKg", "max_auw_kg"]
      ∧ getField (upgradeMissionBundle (aliasProbeBundle e c n p l k)) "nodes"
          = some (JVal.arr [n2])
      ∧ getField n2 "weightGrams" = specAliasPick n ["weightGrams", "weight_grams"]
      ∧ getField n2 "powerDrawW" = specAliasPick n ["powerDrawW", "power_draw_w", "power_w"]
      ∧ getField n2 "rfBandGhz" = specAliasPick n ["rfBandGhz", "rf_band_ghz"]
      ∧ getField n2 "role" = some (jsOr (specAliasPick n ["role", "role_tags"]) (.arr []))
      ∧ getField (upgradeMissionBundle (aliasProbeBundle e c n p l k)) "platforms"
          = some (JVal.arr [p2])
      ∧ getField p2 "frameType" = specAliasPick p ["frameType", "frame_type", "frame"]
      ∧ getField p2 "mountedNodeIds"
          = some (jsOr (specAliasPick p ["mountedNodeIds", "mounted_node_ids"]) (.arr []))
      ∧ getField p2 "payloadIds"
          = some (jsOr (specAliasPick p ["payloadIds", "payload_ids"]) (.arr []))
      ∧ getField p2 "rfBandsGhz"
          = some (jsOr (specAliasPick p ["rfBandsGhz", "rf_bands_ghz"]) (.arr []))
      ∧ getField p2 "powerBudgetW" = specAliasPick p ["powerBudgetW", "power_budget_w"]
      ∧ getField p2 "batteryWh" = specAliasPick p ["batteryWh", "battery_wh"]
      ∧ getField p2 "auwKg" = specAliasPick p ["auwKg", "auw_kg"]
      ∧ getField p2 "nominalEnduranceMin"
          = specAliasPick p ["nominalEnduranceMin", "nominal_endurance_min"]
      ∧ getField p2 "adjustedEnduranceMin"
          = specAliasPick p ["adjustedEnduranceMin", "adjusted_endurance_min"]
      ∧ getField p2 "thrustToWeight" = specAliasPick p ["thrustToWeight", "thrust_to_weight"]
      ∧ getField p2 "adjustedThrustToWeight"
          = specAliasPick p ["adjustedThrustToWeight", "adjusted_thrust_to_weight", "thrust_to_weight"]
      ∧ getField p2 "missionRoles"
          = some (jsOr (specAliasPick p ["missionRoles", "mission_roles"]) (.arr []))
      ∧ getField p2 "intendedRoles"
          = some (jsOr (specAliasPick p ["intendedRoles", "intended_roles"]) (.arr []))
      ∧ getField p2 "environmentRef" = specAliasPick p ["environmentRef", "environment_ref"]
      ∧ getField p2 "constraintsRef" = specAliasPick p ["constraintsRef", "constraints_ref"]
      ∧ getField (upgradeMissionBundle (aliasProbeBundle e c n p l k)) "meshLinks"
          = some (JVal.arr [l2])
      ∧ getField l2 "rfBandGhz" = specAliasPick l ["rfBandGhz", "rf_band_ghz"]
      ∧ getField (upgradeMissionBundle (aliasProbeBundle e c n p l k)) "kits"
          = some (JVal.arr [k2])
      ∧ getField k2 "supportedPlatformIds"
          = specAliasPick k ["supportedPlatformIds", "supported_platform_ids"] := by
  refine ⟨mapEnv e, mapConstraint c, mapNode n, mapPlatform p, mapLink l, mapKit k,
    ?_, ?_, ?_, ?_, ?_, ?_, ?_, ?_, ?_, ?_, ?_, ?_, ?_, ?_, ?_, ?_, ?_, ?_, ?_, ?_, ?_, ?_,
    ?_, ?_, ?_, ?_, ?_, ?_, ?_, ?_, ?_, ?_, ?_, ?_⟩ <;>
    simp only [upgrade_aliasProbe, mapEnv, mapConstraint, mapNode, mapPlatform, mapLink, mapKit,
      objLit, List.foldl_cons, List.foldl_nil, getField_obj, lookupField, objFields] <;>
    simp [lookupField_applyField_ne, lookupField_applyField_self, pickField_eq_specAliasPick]

lemma bundle_platforms_field (st : SessionState) :
    getField (buildMissionProjectBundle st) "platforms"
      = some (JVal.arr ((mergedPlatformsOf st).map (fun kv => kv.2))) := by
  simp only [buildMissionProjectBundle]
  rw [getField_obj,
    lookupField_setField_ne _ _ _ _ (by decide),
    lookupField_setField_ne _ _ _ _ (by decide),
    lookupField_setField_self]

lemma bundle_nodes_field (st : SessionState) :
    getField (buildMissionProjectBundle st) "nodes"
      = some (JVal.arr ((nodeEntriesOf st).map (fun kv => kv.2))) := by
  simp only [buildMissionProjectBundle]
  rw [getField_obj,
    lookupField_setField_ne _ _ _ _ (by decide),
    lookupField_setField_ne _ _ _ _ (by decide),
    lookupField_setField_ne _ _ _ _ (by decide),
    lookupField_setField_self]

lemma truthyEntityIds_spec (b : JVal) (k : String) (id : JVal)
    (h : id ∈ truthyEntityIds b k) :
    ∃ p ∈ arrField b k, getField p "id" = some id ∧ jsTruthy id = true := by
  obtain ⟨p, hp, hf⟩ := List.mem_filterMap.mp h
  refine ⟨p, hp, ?_⟩
  cases hg : getField p "id" with
  | none => simp [hg] at hf
  | some pid =>
    simp only [hg] at hf
    by_cases ht : jsTruthy pid
    · rw [if_pos ht] at hf
      obtain rfl := Option.some.inj hf
      exact ⟨rfl, ht⟩
    · rw [if_neg ht] at hf
      cases hf

lemma keepsId_mem_values (m : List (JVal × JVal)) (id : JVal) (h : keepsId m id) :
    id ∈ (m.map (fun kv => kv.2)).filterMap (fun v => getField v "id") := by
  obtain ⟨kv, hkv, _, hid⟩ := h
  exact List.mem_filterMap.mpr ⟨kv.2, List.mem_map_of_mem _ hkv, hid⟩

/-- C4: the merger never drops a base entity — every truthy platform id
and node id present in the normalized base bundle also appears among the
platform / node entries of the bundle built by the export path, and
`buildMissionProjectPayload` returns exactly that bundle, possibly wrapped
in a `mission_project` envelope; session entries only overlay by id. -/
theorem c4_merge_preserves_base_ids (st : SessionState) (id : JVal) :
    (id ∈ truthyEntityIds (innerBaseOf st) "platforms" →
      id ∈ entityIds (buildMissionProjectBundle st) "platforms")
    ∧ (id ∈ truthyEntityIds (innerBaseOf st) "nodes" →
      id ∈ entityIds (buildMissionProjectBundle st) "nodes")
    ∧ (buildMissionProjectPayload st = buildMissionProjectBundle st
       ∨ buildMissionProjectPayload st
          = JVal.obj [("mission_project", buildMissionProjectBundle st)]) := by
  refine ⟨?_, ?_, ?_⟩
  · intro hmem
    obtain ⟨pp, hpp, hid, ht⟩ := truthyEntityIds_spec _ _ _ hmem
    have hbase : keepsId ((arrField (innerBaseOf st) "platforms").foldl baseIdStep []) id :=
      keepsId_baseFold _ id pp hpp hid ht []
    have hover : keepsId (mergedPlatformsOf st) id := by
      refine foldl_pres platformOverlayStep (fun m => keepsId m id) (platformEntriesOf st) _
        (fun m a ha hm => platformOverlayStep_pres m id a ?_ hm) hbase
      obtain ⟨q, _, rfl⟩ := List.mem_map.mp ha
      exact snapshot_keys_nodup _ _ _ _
    unfold entityIds
    rw [show arrField (buildMissionProjectBundle st) "platforms"
        = (mergedPlatformsOf st).map (fun kv => kv.2) from by
      simp [arrField, bundle_platforms_field]]
    exact keepsId_mem_values _ id hover
  · intro hmem
    obtain ⟨pp, hpp, hid, ht⟩ := truthyEntityIds_spec _ _ _ hmem
    have hbase : keepsId ((arrField (innerBaseOf st) "nodes").foldl baseIdStep []) id :=
      keepsId_baseFold _ id pp hpp hid ht []
    have hover : keepsId (nodeEntriesOf st) id :=
      foldl_pres nodeOverlayStep (fun m => keepsId m id) st.nodeLibrary _
        (fun m a _ hm => nodeOverlayStep_pres m id a hm) hbase
    unfold entityIds
    rw [show arrField (buildMissionProjectBundle st) "nodes"
        = (nodeEntriesOf st).map (fun kv => kv.2) from by
      simp [arrField, bundle_nodes_field]]
    exact keepsId_mem_values _ id hover
  · cases hmp : getField st.importedMissionProject "mission_project" with
    | none => exact Or.inl (by simp [buildMissionProjectPayload, hmp])
    | some mp =>
      by_cases ht : jsTruthy mp
      · exact Or.inr (by simp [buildMissionProjectPayload, hmp, ht])
      · exact Or.inl (by simp [buildMissionProjectPayload, hmp, ht])

/-- C4, witness: the session that imported one platform and one node keeps
both ids in the outbound bundle. -/
theorem c4_merge_preserves_base_ids_witness :
    JVal.str "plt-1" ∈ entityIds (buildMissionProjectBundle c4SampleState) "platforms"
    ∧ JVal.str "node-1" ∈ entityIds (buildMissionProjectBundle c4SampleState) "nodes" := by
  constructor
  · apply (c4_merge_preserves_base_ids c4SampleState (JVal.str "plt-1")).1
    rw [show truthyEntityIds (innerBaseOf c4SampleState) "platforms"
        = [JVal.str "plt-1"] from rfl]
    exact List.mem_singleton.mpr rfl
  · apply (c4_merge_preserves_base_ids c4SampleState (JVal.str "node-1")).2.1
    rw [show truthyEntityIds (innerBaseOf c4SampleState) "nodes"
        = [JVal.str "node-1"] from rfl]
    exact List.mem_singleton.mpr rfl

end Ceradon
